import Mathlib

/-!
Shallow embedding of the Incan Gold CLI rules engine (cards.py, config.py,
player.py, game.py) and proofs of the spec's testable properties.
Python dictionaries keyed by the closed `TreasureType` enumeration are
modelled as a three-field record; the per-round hazard tally (a
`defaultdict(int)` keyed by `card.hazard_type`, an `Option`) is modelled
as a total function `Option HazardType → Nat` defaulting to zero.
Mutation is modelled by explicit state passing.
-/

namespace IncanGold

/-- config.py constants used by scoring and the match loop. -/
def MAX_ROUNDS : Nat := 5

def ARTIFACT_FIRST_TIER_COUNT : Nat := 3

def ARTIFACT_FIRST_TIER_VALUE : Nat := 5

def ARTIFACT_SECOND_TIER_VALUE : Nat := 10

def TREASURE_CARD_VALUES : List Nat := [1, 2, 3, 4, 5, 5, 6, 7, 8, 9, 10, 11, 12, 13, 14, 15]

def HAZARD_TYPES_COUNT : Nat := 2

def ARTIFACTS_PER_ROUND : Nat := 1

/-- cards.py `HazardType`. -/
inductive HazardType
  | snake
  | spider
  | mummy
  | fire
  | collapse
deriving DecidableEq, Repr

/-- The five hazard kinds, in declaration order (iteration over the enum). -/
def HazardType.all : List HazardType := [.snake, .spider, .mummy, .fire, .collapse]

/-- cards.py `CardType`. -/
inductive CardType
  | treasure
  | hazard
  | artifact
deriving DecidableEq, Repr

/-- cards.py `TreasureType`: the enum value is the point value. -/
inductive TreasureType
  | turquoise
  | obsidian
  | gold
deriving DecidableEq, Repr

def TreasureType.value : TreasureType → Nat
  | .turquoise => 1
  | .obsidian => 5
  | .gold => 10

/-- cards.py `Card` dataclass; `remaining_treasure` defaults to 0. -/
structure Card where
  card_type : CardType
  value : Nat := 0
  hazard_type : Option HazardType := none
  name : String := ""
  remaining_treasure : Nat := 0
deriving DecidableEq, Repr

/-- cards.py `create_deck`: 16 treasure cards, 2 of each of 5 hazard kinds, 1 artifact. -/
def create_deck : List Card :=
  (TREASURE_CARD_VALUES.map fun v =>
    { card_type := CardType.treasure, value := v, name := "Treasure " ++ toString v })
  ++ (HazardType.all.flatMap fun h =>
    List.replicate HAZARD_TYPES_COUNT
      { card_type := CardType.hazard, hazard_type := some h })
  ++ List.replicate ARTIFACTS_PER_ROUND
      { card_type := CardType.artifact, value := 0, name := "Ancient Artifact" }

/-- A player's treasure store: the Python dict keyed by the three treasure kinds. -/
structure TreasureCounts where
  turquoise : Nat := 0
  obsidian : Nat := 0
  gold : Nat := 0
deriving DecidableEq, Repr

/-- `counts[kind] += amount` on the Python treasure dict. -/
def TreasureCounts.add (c : TreasureCounts) : TreasureType → Nat → TreasureCounts
  | .turquoise, a => { c with turquoise := c.turquoise + a }
  | .obsidian, a => { c with obsidian := c.obsidian + a }
  | .gold, a => { c with gold := c.gold + a }

/-- player.py `Player`. -/
structure Player where
  name : String := ""
  is_human : Bool := false
  tent_treasures : TreasureCounts := {}
  artifacts : Nat := 0
  round_treasures : TreasureCounts := {}
  in_temple : Bool := true
  total_score : Nat := 0
deriving DecidableEq, Repr

/-- player.py `Player.add_treasure_to_tent`. -/
def Player.add_treasure_to_tent (p : Player) (t : TreasureType) (amount : Nat) : Player :=
  { p with tent_treasures := p.tent_treasures.add t amount }

/-- player.py `Player.add_treasure_to_round`. -/
def Player.add_treasure_to_round (p : Player) (t : TreasureType) (amount : Nat) : Player :=
  { p with round_treasures := p.round_treasures.add t amount }

/-- player.py `Player.move_round_treasures_to_tent`: for every kind, add the
round amount into the tent amount, then zero the round amount. -/
def Player.move_round_treasures_to_tent (p : Player) : Player :=
  { p with
    tent_treasures :=
      { turquoise := p.tent_treasures.turquoise + p.round_treasures.turquoise
        obsidian := p.tent_treasures.obsidian + p.round_treasures.obsidian
        gold := p.tent_treasures.gold + p.round_treasures.gold }
    round_treasures := {} }

/-- player.py `Player.lose_round_treasures`. -/
def Player.lose_round_treasures (p : Player) : Player :=
  { p with round_treasures := {} }

/-- player.py `Player.calculate_score`: treasure score plus tiered artifact
score; mutates `total_score` and returns the score. -/
def Player.calculate_score (p : Player) : Player × Nat :=
  let treasureScore :=
    p.tent_treasures.turquoise * TreasureType.turquoise.value
    + p.tent_treasures.obsidian * TreasureType.obsidian.value
    + p.tent_treasures.gold * TreasureType.gold.value
  let score :=
    if p.artifacts ≤ ARTIFACT_FIRST_TIER_COUNT then
      treasureScore + p.artifacts * ARTIFACT_FIRST_TIER_VALUE
    else
      treasureScore + (ARTIFACT_FIRST_TIER_COUNT * ARTIFACT_FIRST_TIER_VALUE
        + (p.artifacts - ARTIFACT_FIRST_TIER_COUNT) * ARTIFACT_SECOND_TIER_VALUE)
  ({ p with total_score := score }, score)

/-- player.py `Player.reset_for_round`. -/
def Player.reset_for_round (p : Player) : Player :=
  { p with round_treasures := {}, in_temple := true }

/-- game.py `Game` round state: the fields the rules engine reads and writes.
The hazard tally is keyed by `card.hazard_type` (an `Option`), defaulting
to zero like the Python `defaultdict(int)`. -/
structure Game where
  players : List Player := []
  current_round : Nat := 0
  deck : List Card := []
  path : List Card := []
  hazard_counts : Option HazardType → Nat := fun _ => 0
  artifacts_on_path : List Card := []

/-- `[p for p in self.players if p.in_temple]`, counted. -/
def inTempleCount (players : List Player) : Nat :=
  (players.filter fun p => p.in_temple).length

/-- game.py `Game.setup_round`: bump the round counter, install the freshly
shuffled deck (the shuffle is modelled by taking the permuted deck as a
parameter), clear path / tally / pending artifacts, reset every player. -/
def setup_round (g : Game) (newDeck : List Card) : Game :=
  { g with
    current_round := g.current_round + 1
    deck := newDeck
    path := []
    hazard_counts := fun _ => 0
    artifacts_on_path := []
    players := g.players.map Player.reset_for_round }

/-- game.py `Game.distribute_treasure`: split the card value among in-temple
players, floor-divided, credited as Turquoise; the remainder is stored on the
card (which already sits on the path). Returns players, the card, continue. -/
def distribute_treasure (players : List Player) (card : Card) :
    List Player × Card × Bool :=
  let n := inTempleCount players
  if n = 0 then (players, card, true)
  else
    let treasure_per_player := card.value / n
    let rem := card.value % n
    let players' := players.map fun p =>
      if p.in_temple then
        (if 0 < treasure_per_player then
          p.add_treasure_to_round TreasureType.turquoise treasure_per_player
        else p)
      else p
    (players', { card with remaining_treasure := rem }, true)

/-- game.py `Game.process_hazard`: bump the tally for the card's hazard kind;
the round continues iff the new count is below 2. -/
def process_hazard (counts : Option HazardType → Nat) (h : Option HazardType) :
    (Option HazardType → Nat) × Bool :=
  let counts' : Option HazardType → Nat := fun k => if k = h then counts k + 1 else counts k
  (counts', decide (counts' h < 2))

/-- game.py `Game.process_card`: append the card to the path and dispatch on
its type. The treasure card appended to the path carries the remainder
written by `distribute_treasure` (in Python the path holds the same mutable
object). Returns the new state and whether the round continues. -/
def process_card (g : Game) (card : Card) : Game × Bool :=
  match card.card_type with
  | .treasure =>
    let r := distribute_treasure g.players card
    ({ g with players := r.1, path := g.path ++ [r.2.1] }, r.2.2)
  | .hazard =>
    let r := process_hazard g.hazard_counts card.hazard_type
    ({ g with path := g.path ++ [card], hazard_counts := r.1 }, r.2)
  | .artifact =>
    ({ g with
        path := g.path ++ [card]
        artifacts_on_path := g.artifacts_on_path ++ [card] }, true)

/-- A player paired with their decision leaves iff they are in the temple and
decided `false` (game.py: `[p for p, decision in decisions.items() if not decision]`,
where the decision dict only covers in-temple players). -/
def isLeaver (p : Player) (d : Bool) : Bool := p.in_temple && !d

/-- Number of leavers for a decision vector aligned with the player list. -/
def leaversCount (players : List Player) (decisions : List Bool) : Nat :=
  ((players.zip decisions).filter fun pd => isLeaver pd.1 pd.2).length

/-- Total `remaining_treasure` over the path
(`sum(getattr(card, 'remaining_treasure', 0) for card in self.path)`). -/
def pathTreasure (path : List Card) : Nat :=
  (path.map fun c => c.remaining_treasure).sum

/-- `card.remaining_treasure = 0` for every path card. -/
def zeroPathTreasure (path : List Card) : List Card :=
  path.map fun c => { c with remaining_treasure := 0 }

/-- Leaving players bank their round treasures and exit the temple
(`player.move_round_treasures_to_tent(); player.in_temple = False`). -/
def departMove (isL : Bool) (p : Player) : Player :=
  if isL then { p.move_round_treasures_to_tent with in_temple := false } else p

/-- Each leaver receives the per-leaver path share, credited to the tent as
Turquoise, only when the share is positive. -/
def tentShare (isL : Bool) (per : Nat) (p : Player) : Player :=
  if isL && decide (0 < per) then p.add_treasure_to_tent TreasureType.turquoise per else p

/-- The lone leaver collects all pending artifacts. -/
def artAward (isL : Bool) (cnt : Nat) (p : Player) : Player :=
  if isL then { p with artifacts := p.artifacts + cnt } else p

/-- game.py `Game.process_departures`, on a decision vector aligned with the
player list. Early return when nobody leaves; otherwise leavers bank round
treasures and exit, the summed path remainder is floor-split among leavers
(zeroing the path only inside the `total > 0` branch, as in the source), and
a lone leaver collects any pending artifacts. -/
def process_departures (g : Game) (decisions : List Bool) : Game :=
  let tagged := g.players.zip decisions
  let k := (tagged.filter fun pd => isLeaver pd.1 pd.2).length
  if k = 0 then g
  else
    let step1 := tagged.map fun pd => (departMove (isLeaver pd.1 pd.2) pd.1, isLeaver pd.1 pd.2)
    let total := pathTreasure g.path
    let step2 :=
      if 0 < total then step1.map fun pf => (tentShare pf.2 (total / k) pf.1, pf.2)
      else step1
    let path2 := if 0 < total then zeroPathTreasure g.path else g.path
    let awardArt := decide (k = 1) && !g.artifacts_on_path.isEmpty
    let step3 :=
      if awardArt then step2.map fun pf => (artAward pf.2 g.artifacts_on_path.length pf.1, pf.2)
      else step2
    let artifacts2 := if awardArt then ([] : List Card) else g.artifacts_on_path
    { g with players := step3.map Prod.fst, path := path2, artifacts_on_path := artifacts2 }

/-- game.py `Game.get_player_decisions`: the human in-temple player is asked
first and may answer with the quit sentinel (`none`), which aborts the whole
collection; AI decisions are supplied by the oracle `ai` (indexed by player
position). Players outside the temple are not consulted; their slot is
filled with `true` (stay), which `isLeaver` ignores. -/
def get_player_decisions (players : List Player) (human : Option Bool)
    (ai : Nat → Bool) : Option (List Bool) :=
  if (players.any fun p => p.in_temple && p.is_human) && human.isNone then none
  else
    some ((players.enum).map fun ip =>
      if ip.2.in_temple then
        (if ip.2.is_human then human.getD true else ai ip.1)
      else true)

/-- After a fatal second hazard, every player still in the temple loses the
round treasures (`for player in remaining_players: player.lose_round_treasures()`). -/
def loseRoundForInTemple (g : Game) : Game :=
  { g with players := g.players.map fun p => if p.in_temple then p.lose_round_treasures else p }

/-- Result of one round: `ok` models Python `return True`, `quitGame` models
`return False`; `emptyDeckError` models `deck.pop(0)` raising on an empty
deck, and `outOfFuel` is an artifact of the bounded loop model. -/
inductive RoundResult
  | ok (g : Game)
  | quitGame (g : Game)
  | emptyDeckError (g : Game)
  | outOfFuel (g : Game)

def RoundResult.isEmptyDeckErr : RoundResult → Bool
  | .emptyDeckError _ => true
  | _ => false

/-- The `while True` loop of game.py `Game.play_round`, fuelled. `k` counts
decision points; `humanO k` / `aiO k` supply that decision point's inputs.
Checks (in source order): all left, deck exhausted, quit sentinel, departures,
everyone-left re-check, then draw (`deck.pop(0)`) and process the card. -/
def round_loop (humanO : Nat → Option Bool) (aiO : Nat → Nat → Bool) :
    Nat → Game → Nat → RoundResult
  | 0, g, _ => .outOfFuel g
  | fuel + 1, g, k =>
    if inTempleCount g.players = 0 then .ok g
    else if g.deck.isEmpty then .ok g
    else
      match get_player_decisions g.players (humanO k) (aiO k) with
      | none => .quitGame g
      | some decisions =>
        let g1 := process_departures g decisions
        if inTempleCount g1.players = 0 then round_loop humanO aiO fuel g1 (k + 1)
        else
          match g1.deck with
          | [] => .emptyDeckError g1
          | card :: rest =>
            let r := process_card { g1 with deck := rest } card
            if r.2 then round_loop humanO aiO fuel r.1 (k + 1)
            else .ok (loseRoundForInTemple r.1)

/-- game.py `Game.play_round`: set up, draw the first card immediately when
the deck is non-empty (on a fatal first card every player loses the round
treasures and the round returns normally), then enter the main loop. -/
def play_round (g : Game) (newDeck : List Card) (humanO : Nat → Option Bool)
    (aiO : Nat → Nat → Bool) (fuel : Nat) : RoundResult :=
  let g0 := setup_round g newDeck
  match g0.deck with
  | [] => round_loop humanO aiO fuel g0 0
  | card :: rest =>
    let r := process_card { g0 with deck := rest } card
    if r.2 then round_loop humanO aiO fuel r.1 0
    else .ok { r.1 with players := r.1.players.map Player.lose_round_treasures }

/-- External inputs for a whole match: one shuffled deck and one pair of
decision oracles per round, plus the loop fuel. -/
structure MatchInputs where
  decks : Nat → List Card
  humanO : Nat → Nat → Option Bool
  aiO : Nat → Nat → Nat → Bool
  fuel : Nat

/-- Observable side effects of game.py `Game.play_game` after the rounds:
score computation per player (ui.display_final_scores), the leaderboard file
read and write (save_leaderboard), and the final leaderboard read
(display_leaderboard). -/
inductive GameEvent
  | scoreComputed (playerName : String)
  | leaderboardRead
  | leaderboardWrite
deriving DecidableEq, Repr

/-- The round `for` loop of game.py `Game.play_game`: play `n` more rounds
starting at round index `r`; `none` when a round aborts via the quit
sentinel (or the bounded model gives out). -/
def play_rounds (inp : MatchInputs) : Nat → Nat → Game → Option Game
  | _, 0, g => some g
  | r, n + 1, g =>
    match play_round g (inp.decks r) (inp.humanO r) (inp.aiO r) inp.fuel with
    | .ok g' => play_rounds inp (r + 1) n g'
    | _ => none

/-- game.py `Game.play_game`: run `MAX_ROUNDS` rounds; on a quit-sentinel
abort return immediately with an empty effect trace; otherwise compute every
player's score and touch the leaderboard (read, write, read). -/
def play_game (inp : MatchInputs) (g : Game) : Option Game × List GameEvent :=
  match play_rounds inp 0 MAX_ROUNDS g with
  | none => (none, [])
  | some g' =>
    (some { g' with players := g'.players.map fun p => (p.calculate_score).1 },
     (g'.players.map fun p => GameEvent.scoreComputed p.name)
       ++ [GameEvent.leaderboardRead, GameEvent.leaderboardWrite, GameEvent.leaderboardRead])

/-- The concrete treasure card used as counterexample input for the
zero-players-in-temple edge case: value 5, fresh from `create_deck`, so its
`remaining_treasure` carries the dataclass default 0. -/
def cardFive : Card := { card_type := CardType.treasure, value := 5 }

/-- The two-explorer temple used to witness the treasure split. -/
def twoInTemple : List Player := [{ name := "A" }, { name := "B" }]

/-- A value-7 treasure card, for witnessing an indivisible split. -/
def cardSeven : Card := { card_type := CardType.treasure, value := 7 }

/-- The sequential composition applied to each (player, decision) pair by
`process_departures` once at least one player leaves: bank and exit for
leavers, then the conditional path-share credit, then the conditional lone
leaver artifact award. Used to state what `process_departures` does
pointwise. -/
def departPipe (total k : Nat) (award : Bool) (cnt : Nat) (L : Bool) (p : Player) : Player :=
  let p1 := departMove L p
  let p2 := if 0 < total then tentShare L (total / k) p1 else p1
  if award then artAward L cnt p2 else p2

/-- The departures example: two in-temple players (one carrying 5 round
Turquoise), one player already outside, a path card holding remainder 7, and
one pending artifact. -/
def departGame : Game :=
  { players := [{ name := "x", round_treasures := { turquoise := 5 } },
                { name := "y" },
                { name := "z", in_temple := false }]
    path := [{ card_type := CardType.treasure, value := 9, remaining_treasure := 7 }]
    artifacts_on_path := [{ card_type := CardType.artifact }] }

/-- A snake hazard card (witness input for the hazard tally claims). -/
def snakeCard : Card := { card_type := CardType.hazard, hazard_type := some HazardType.snake }

/-- A one-player game that has already seen one snake this round. -/
def snakeSeenGame : Game :=
  { players := [{ name := "A" }]
    hazard_counts := fun k => if k = some HazardType.snake then 1 else 0 }

/-- A one-human game mid-round: human in the temple, cards still in the
deck (witness input for the quit-sentinel claim). -/
def quitRoundGame : Game :=
  { players := [{ name := "h", is_human := true }], deck := [cardSeven] }

/-- Match inputs whose human oracle always answers with the quit sentinel. -/
def quitInputs : MatchInputs :=
  { decks := fun _ => [cardSeven, cardSeven]
    humanO := fun _ _ => none
    aiO := fun _ _ _ => true
    fuel := 5 }

/-- The fresh one-human game the quit-sentinel match starts from. -/
def quitStartGame : Game := { players := [{ name := "h", is_human := true }] }

/-! ## Theorems -/

/-- What `departPipe` does to a leaver's treasure and presence fields: the
round store is banked into the tent, the path share lands as tent Turquoise,
the round store ends empty and the player is out of the temple. -/
lemma departPipe_leaver (total k : Nat) (award : Bool) (cnt : Nat) (p : Player) :
    (departPipe total k award cnt true p).tent_treasures.turquoise
        = p.tent_treasures.turquoise + p.round_treasures.turquoise + total / k
    ∧ (departPipe total k award cnt true p).tent_treasures.obsidian
        = p.tent_treasures.obsidian + p.round_treasures.obsidian
    ∧ (departPipe total k award cnt true p).tent_treasures.gold
        = p.tent_treasures.gold + p.round_treasures.gold
    ∧ (departPipe total k award cnt true p).round_treasures = {}
    ∧ (departPipe total k award cnt true p).in_temple = false := by
  by_cases ht : 0 < total
  · by_cases hper : 0 < total / k
    · cases award <;>
        simp [departPipe, departMove, tentShare, artAward, ht, hper,
          Player.move_round_treasures_to_tent, Player.add_treasure_to_tent,
          TreasureCounts.add]
    · have h0 : total / k = 0 := Nat.eq_zero_of_not_pos hper
      cases award <;>
        simp [departPipe, departMove, tentShare, artAward, ht, hper, h0,
          Player.move_round_treasures_to_tent]
  · have h0 : total = 0 := Nat.eq_zero_of_not_pos ht
    cases award <;>
      simp [departPipe, departMove, tentShare, artAward, ht, h0, Nat.zero_div,
        Player.move_round_treasures_to_tent]

/-- `departPipe` leaves a non-leaver completely unchanged. -/
lemma departPipe_nonleaver (total k : Nat) (award : Bool) (cnt : Nat) (p : Player) :
    departPipe total k award cnt false p = p := by
  cases award <;> simp [departPipe, departMove, tentShare, artAward]

/-- `departPipe` changes the artifact count exactly when the award flag is on
and the player is a leaver. -/
lemma departPipe_artifacts (total k : Nat) (award : Bool) (cnt : Nat) (L : Bool) (p : Player) :
    (departPipe total k award cnt L p).artifacts
      = if award && L then p.artifacts + cnt else p.artifacts := by
  cases award <;> cases L <;>
    by_cases ht : 0 < total <;>
    by_cases hper : 0 < total / k <;>
    simp [departPipe, departMove, tentShare, artAward, ht, hper,
      Player.move_round_treasures_to_tent, Player.add_treasure_to_tent,
      TreasureCounts.add]

/-- `process_departures` never touches the deck. -/
lemma process_departures_deck (g : Game) (d : List Bool) :
    (process_departures g d).deck = g.deck := by
  simp only [process_departures]
  split <;> rfl

/-- Once at least one player leaves, the player list after
`process_departures` is the zip of players and decisions mapped through
`departPipe`. -/
lemma process_departures_players (g : Game) (d : List Bool)
    (hk : ¬ leaversCount g.players d = 0) :
    (process_departures g d).players
      = (g.players.zip d).map fun pd =>
          departPipe (pathTreasure g.path) (leaversCount g.players d)
            (decide (leaversCount g.players d = 1) && !g.artifacts_on_path.isEmpty)
            g.artifacts_on_path.length (isLeaver pd.1 pd.2) pd.1 := by
  simp only [leaversCount] at hk ⊢
  simp only [process_departures, if_neg hk]
  by_cases ht : 0 < pathTreasure g.path <;>
    by_cases ha : (decide (((g.players.zip d).filter fun pd => isLeaver pd.1 pd.2).length = 1)
        && !g.artifacts_on_path.isEmpty) = true <;>
    simp only [ht, ha, if_true, if_false, Bool.false_eq_true, List.map_map,
      Bool.not_eq_true, ite_true, ite_false] <;>
    exact List.map_congr_left fun pd _ => by
      simp [departPipe, Function.comp_def, ht, ha]

/-- Once at least one player leaves, the path after `process_departures` is
zeroed when it carried treasure and untouched otherwise. -/
lemma process_departures_path (g : Game) (d : List Bool)
    (hk : ¬ leaversCount g.players d = 0) :
    (process_departures g d).path
      = if 0 < pathTreasure g.path then zeroPathTreasure g.path else g.path := by
  simp only [leaversCount] at hk
  simp only [process_departures, if_neg hk]

/-- Once at least one player leaves, the pending artifacts after
`process_departures` are cleared exactly when a lone leaver collects them. -/
lemma process_departures_artifacts (g : Game) (d : List Bool)
    (hk : ¬ leaversCount g.players d = 0) :
    (process_departures g d).artifacts_on_path
      = if decide (leaversCount g.players d = 1) && !g.artifacts_on_path.isEmpty
        then [] else g.artifacts_on_path := by
  simp only [leaversCount] at hk ⊢
  simp only [process_departures, if_neg hk]

/-- C9: for every player state, calling `move_round_treasures_to_tent` twice
in a row gives the same result as calling it once (after the first call the
round store is zero, so the second call changes nothing). -/
theorem move_round_to_tent_idempotent (p : Player) :
    p.move_round_treasures_to_tent.move_round_treasures_to_tent
      = p.move_round_treasures_to_tent
    ∧ (p.move_round_treasures_to_tent).round_treasures = {} :=
  ⟨by simp [Player.move_round_treasures_to_tent], rfl⟩

/-- C5: `calculate_score` returns the sum over kinds of tent count times kind
value (Turquoise 1, Obsidian 5, Gold 10) plus the tiered artifact score
(`n * 5` for `n ≤ 3`, else `15 + (n - 3) * 10`); in particular 3 artifacts
contribute 15, 4 contribute 25, and tent `{Turquoise 3, Obsidian 1, Gold 0}`
with 5 artifacts scores 43. -/
theorem calculate_score_formula (p : Player) :
    (p.calculate_score).2 =
      p.tent_treasures.turquoise * 1 + p.tent_treasures.obsidian * 5
        + p.tent_treasures.gold * 10
        + (if p.artifacts ≤ 3 then p.artifacts * 5 else 3 * 5 + (p.artifacts - 3) * 10)
    ∧ (Player.calculate_score { artifacts := 3 }).2 = 15
    ∧ (Player.calculate_score { artifacts := 4 }).2 = 25
    ∧ (Player.calculate_score
        { tent_treasures := { turquoise := 3, obsidian := 1, gold := 0 }
          artifacts := 5 }).2 = 43 := by
  refine ⟨?_, by decide, by decide, by decide⟩
  simp only [Player.calculate_score, TreasureType.value, ARTIFACT_FIRST_TIER_COUNT,
    ARTIFACT_FIRST_TIER_VALUE, ARTIFACT_SECOND_TIER_VALUE, apply_ite
      (fun s => p.tent_treasures.turquoise * 1 + p.tent_treasures.obsidian * 5
        + p.tent_treasures.gold * 10 + s)]

/-- C6 counterexample: with zero players in the temple, processing a value-5
treasure card leaves the card's `remaining_treasure` at 0, not at its full
value 5 — `distribute_treasure` returns before writing the field, so the
claim that the field equals `v` afterwards is false. -/
theorem distribute_no_temple_counterexample :
    inTempleCount [] = 0 ∧ cardFive.value = 5
    ∧ (distribute_treasure [] cardFive).2.1.remaining_treasure = 0
    ∧ (distribute_treasure [] cardFive).2.1.remaining_treasure ≠ cardFive.value := by
  decide

/-- C6 as amended: with zero players in the temple, treasure distribution is
a complete no-op returning "continue": the players are unchanged and the card
is returned exactly as it came in, so its `remaining_treasure` keeps its
prior value (0 for a freshly drawn card) rather than being set to the card's
value — the treasure is silently dropped with no remainder bookkeeping. -/
theorem distribute_treasure_no_temple (players : List Player) (card : Card)
    (h : inTempleCount players = 0) :
    distribute_treasure players card = (players, card, true) := by
  simp [distribute_treasure, h]

/-- C6 witness: the no-op behavior at the concrete empty temple and value-5
card. -/
theorem distribute_treasure_no_temple_witness :
    inTempleCount [] = 0 ∧ distribute_treasure [] cardFive = ([], cardFive, true) :=
  ⟨by decide, distribute_treasure_no_temple [] cardFive (by decide)⟩

/-- C1: processing a treasure card of value `v` with `n > 0` players in the
temple gives each in-temple player exactly `v / n` extra round-store
Turquoise (their other round counts, tent store, artifacts and presence flag
untouched), leaves players outside the temple completely unchanged, stores
`v % n` on the card as `remaining_treasure`, satisfies
`(v / n) * n + v % n = v`, and returns "continue". -/
theorem distribute_treasure_split (players : List Player) (card : Card)
    (hn : 0 < inTempleCount players) :
    (distribute_treasure players card).1.length = players.length
    ∧ (∀ (i : Nat) (p q : Player), players[i]? = some p →
        (distribute_treasure players card).1[i]? = some q →
        (p.in_temple = true →
          q.round_treasures.turquoise
              = p.round_treasures.turquoise + card.value / inTempleCount players
          ∧ q.round_treasures.obsidian = p.round_treasures.obsidian
          ∧ q.round_treasures.gold = p.round_treasures.gold
          ∧ q.tent_treasures = p.tent_treasures
          ∧ q.artifacts = p.artifacts
          ∧ q.in_temple = p.in_temple)
        ∧ (p.in_temple = false → q = p))
    ∧ (distribute_treasure players card).2.1.remaining_treasure
        = card.value % inTempleCount players
    ∧ (card.value / inTempleCount players) * inTempleCount players
        + card.value % inTempleCount players = card.value
    ∧ (distribute_treasure players card).2.2 = true := by
  have hne : ¬ inTempleCount players = 0 := Nat.pos_iff_ne_zero.mp hn
  refine ⟨?_, ?_, ?_, ?_, ?_⟩
  · simp [distribute_treasure, hne]
  · intro i p q hp hq
    simp only [distribute_treasure, if_neg hne, List.getElem?_map, hp, Option.map_some'] at hq
    rw [Option.some_inj] at hq
    constructor
    · intro hpt
      subst hq
      by_cases hper : 0 < card.value / inTempleCount players
      · simp [hpt, if_pos hper, Player.add_treasure_to_round, TreasureCounts.add]
      · have h0 : card.value / inTempleCount players = 0 := Nat.eq_zero_of_not_pos hper
        simp [hpt, if_neg hper, h0]
    · intro hpf
      subst hq
      simp [hpf]
  · simp [distribute_treasure, hne]
  · rw [Nat.mul_comm]
    exact Nat.div_add_mod card.value (inTempleCount players)
  · simp [distribute_treasure, hne]

/-- C1 witness: a value-7 treasure card over two in-temple players gives each
3 Turquoise, stores remainder 1 on the card, and continues the round. -/
theorem distribute_treasure_split_witness :
    0 < inTempleCount twoInTemple
    ∧ ((distribute_treasure twoInTemple cardSeven).1.length = twoInTemple.length
      ∧ (∀ (i : Nat) (p q : Player), twoInTemple[i]? = some p →
          (distribute_treasure twoInTemple cardSeven).1[i]? = some q →
          (p.in_temple = true →
            q.round_treasures.turquoise
                = p.round_treasures.turquoise + cardSeven.value / inTempleCount twoInTemple
            ∧ q.round_treasures.obsidian = p.round_treasures.obsidian
            ∧ q.round_treasures.gold = p.round_treasures.gold
            ∧ q.tent_treasures = p.tent_treasures
            ∧ q.artifacts = p.artifacts
            ∧ q.in_temple = p.in_temple)
          ∧ (p.in_temple = false → q = p))
      ∧ (distribute_treasure twoInTemple cardSeven).2.1.remaining_treasure
          = cardSeven.value % inTempleCount twoInTemple
      ∧ (cardSeven.value / inTempleCount twoInTemple) * inTempleCount twoInTemple
          + cardSeven.value % inTempleCount twoInTemple = cardSeven.value
      ∧ (distribute_treasure twoInTemple cardSeven).2.2 = true) :=
  ⟨by decide, distribute_treasure_split twoInTemple cardSeven (by decide)⟩


/-- C3: with `k ≥ 1` leavers and path remainder sum `s`, every leaver banks
the round store into the tent and exits the temple, then additionally gains
exactly `s / k` tent Turquoise; the division remainder `s % k` is credited to
nobody (`(s / k) * k + s % k = s` accounts for it), non-leavers are untouched,
and afterwards every path card's `remaining_treasure` is 0. -/
theorem departures_split_path_remainder (g : Game) (d : List Bool)
    (hlen : g.players.length ≤ d.length)
    (hk : 0 < leaversCount g.players d) :
    (process_departures g d).players.length = g.players.length
    ∧ (∀ (i : Nat) (p : Player) (b : Bool), g.players[i]? = some p → d[i]? = some b →
        ∃ q : Player, (process_departures g d).players[i]? = some q
          ∧ (isLeaver p b = true →
              q.tent_treasures.turquoise = p.tent_treasures.turquoise
                  + p.round_treasures.turquoise
                  + pathTreasure g.path / leaversCount g.players d
              ∧ q.tent_treasures.obsidian
                  = p.tent_treasures.obsidian + p.round_treasures.obsidian
              ∧ q.tent_treasures.gold = p.tent_treasures.gold + p.round_treasures.gold
              ∧ q.round_treasures = {}
              ∧ q.in_temple = false)
          ∧ (isLeaver p b = false → q = p))
    ∧ (∀ c ∈ (process_departures g d).path, c.remaining_treasure = 0)
    ∧ (pathTreasure g.path / leaversCount g.players d) * leaversCount g.players d
        + pathTreasure g.path % leaversCount g.players d = pathTreasure g.path := by
  have hk' : ¬ leaversCount g.players d = 0 := Nat.pos_iff_ne_zero.mp hk
  have hpl := process_departures_players g d hk'
  refine ⟨?_, ?_, ?_, ?_⟩
  · rw [hpl, List.length_map, List.length_zip, Nat.min_eq_left hlen]
  · intro i p b hp hb
    have hzip : (g.players.zip d)[i]? = some (p, b) :=
      List.getElem?_zip_eq_some.mpr ⟨hp, hb⟩
    refine ⟨departPipe (pathTreasure g.path) (leaversCount g.players d)
        (decide (leaversCount g.players d = 1) && !g.artifacts_on_path.isEmpty)
        g.artifacts_on_path.length (isLeaver p b) p, ?_, ?_, ?_⟩
    · rw [hpl, List.getElem?_map, hzip, Option.map_some']
    · intro hL
      rw [hL]
      exact departPipe_leaver _ _ _ _ p
    · intro hL
      rw [hL]
      exact departPipe_nonleaver _ _ _ _ p
  · rw [process_departures_path g d hk']
    by_cases ht : 0 < pathTreasure g.path
    · rw [if_pos ht]
      intro c hc
      rcases List.mem_map.mp hc with ⟨c', _, rfl⟩
      rfl
    · rw [if_neg ht]
      have h0 : pathTreasure g.path = 0 := Nat.eq_zero_of_not_pos ht
      intro c hc
      have : c.remaining_treasure ∈ g.path.map fun c => c.remaining_treasure :=
        List.mem_map.mpr ⟨c, hc, rfl⟩
      exact List.sum_eq_zero_iff.mp h0 _ this
  · rw [Nat.mul_comm]
    exact Nat.div_add_mod _ _

/-- C3 witness: in `departGame` with decisions leave/leave/stay, the two
leavers split the path remainder 7 as 3 each (1 dropped) and the path is
zeroed. -/
theorem departures_split_path_remainder_witness :
    departGame.players.length ≤ [false, false, true].length
    ∧ 0 < leaversCount departGame.players [false, false, true]
    ∧ ((process_departures departGame [false, false, true]).players.length
          = departGame.players.length
      ∧ (∀ (i : Nat) (p : Player) (b : Bool), departGame.players[i]? = some p →
          [false, false, true][i]? = some b →
          ∃ q : Player, (process_departures departGame [false, false, true]).players[i]? = some q
            ∧ (isLeaver p b = true →
                q.tent_treasures.turquoise = p.tent_treasures.turquoise
                    + p.round_treasures.turquoise
                    + pathTreasure departGame.path
                        / leaversCount departGame.players [false, false, true]
                ∧ q.tent_treasures.obsidian
                    = p.tent_treasures.obsidian + p.round_treasures.obsidian
                ∧ q.tent_treasures.gold = p.tent_treasures.gold + p.round_treasures.gold
                ∧ q.round_treasures = {}
                ∧ q.in_temple = false)
            ∧ (isLeaver p b = false → q = p))
      ∧ (∀ c ∈ (process_departures departGame [false, false, true]).path,
            c.remaining_treasure = 0)
      ∧ (pathTreasure departGame.path / leaversCount departGame.players [false, false, true])
            * leaversCount departGame.players [false, false, true]
          + pathTreasure departGame.path % leaversCount departGame.players [false, false, true]
          = pathTreasure departGame.path) :=
  ⟨by decide, by decide,
    departures_split_path_remainder departGame [false, false, true] (by decide) (by decide)⟩


/-- C4: after departures, when exactly one player left and artifacts were
pending, that lone leaver's artifact count grows by the number of pending
artifacts and the pending list is cleared; when zero players left the whole
state is untouched, and when two or more left every artifact count and the
pending list are unchanged. -/
theorem departures_artifact_award (g : Game) (d : List Bool) :
    ((leaversCount g.players d = 1 ∧ g.artifacts_on_path ≠ []) →
        (process_departures g d).artifacts_on_path = []
        ∧ ∀ (i : Nat) (p : Player) (b : Bool), g.players[i]? = some p → d[i]? = some b →
            ∃ q : Player, (process_departures g d).players[i]? = some q
              ∧ q.artifacts = (if isLeaver p b then
                  p.artifacts + g.artifacts_on_path.length else p.artifacts))
    ∧ (leaversCount g.players d = 0 → process_departures g d = g)
    ∧ (2 ≤ leaversCount g.players d →
        (process_departures g d).artifacts_on_path = g.artifacts_on_path
        ∧ ∀ (i : Nat) (p : Player) (b : Bool), g.players[i]? = some p → d[i]? = some b →
            ∃ q : Player, (process_departures g d).players[i]? = some q
              ∧ q.artifacts = p.artifacts) := by
  refine ⟨?_, ?_, ?_⟩
  · rintro ⟨h1, hne⟩
    have hk' : ¬ leaversCount g.players d = 0 := by omega
    have hemp : g.artifacts_on_path.isEmpty = false := by
      cases hArt : g.artifacts_on_path with
      | nil => exact absurd hArt hne
      | cons a l => rfl
    have haward : (decide (leaversCount g.players d = 1)
        && !g.artifacts_on_path.isEmpty) = true := by
      simp [h1, hemp]
    constructor
    · rw [process_departures_artifacts g d hk', if_pos haward]
    · intro i p b hp hb
      have hzip : (g.players.zip d)[i]? = some (p, b) :=
        List.getElem?_zip_eq_some.mpr ⟨hp, hb⟩
      refine ⟨departPipe (pathTreasure g.path) (leaversCount g.players d)
          (decide (leaversCount g.players d = 1) && !g.artifacts_on_path.isEmpty)
          g.artifacts_on_path.length (isLeaver p b) p, ?_, ?_⟩
      · rw [process_departures_players g d hk', List.getElem?_map, hzip, Option.map_some']
      · rw [departPipe_artifacts, haward, Bool.true_and]
  · intro h0
    simp only [leaversCount] at h0
    simp only [process_departures, h0, if_true]
  · intro h2
    have hk' : ¬ leaversCount g.players d = 0 := by omega
    have haward : (decide (leaversCount g.players d = 1)
        && !g.artifacts_on_path.isEmpty) = false := by
      have : ¬ leaversCount g.players d = 1 := by omega
      simp [this]
    constructor
    · rw [process_departures_artifacts g d hk', if_neg (by simp [haward])]
    · intro i p b hp hb
      have hzip : (g.players.zip d)[i]? = some (p, b) :=
        List.getElem?_zip_eq_some.mpr ⟨hp, hb⟩
      refine ⟨departPipe (pathTreasure g.path) (leaversCount g.players d)
          (decide (leaversCount g.players d = 1) && !g.artifacts_on_path.isEmpty)
          g.artifacts_on_path.length (isLeaver p b) p, ?_, ?_⟩
      · rw [process_departures_players g d hk', List.getElem?_map, hzip, Option.map_some']
      · rw [departPipe_artifacts, haward, Bool.false_and, if_neg (by decide)]

/-- C4 witness: in `departGame` with decisions leave/stay/stay, the lone
leaver collects the single pending artifact and the pending list empties;
with everyone staying nothing changes. -/
theorem departures_artifact_award_witness :
    (leaversCount departGame.players [false, true, true] = 1
        ∧ departGame.artifacts_on_path ≠ [])
    ∧ ((process_departures departGame [false, true, true]).artifacts_on_path = []
      ∧ ∀ (i : Nat) (p : Player) (b : Bool), departGame.players[i]? = some p →
          [false, true, true][i]? = some b →
          ∃ q : Player, (process_departures departGame [false, true, true]).players[i]? = some q
            ∧ q.artifacts = (if isLeaver p b then
                p.artifacts + departGame.artifacts_on_path.length else p.artifacts)) :=
  ⟨⟨by decide, by decide⟩,
    (departures_artifact_award departGame [false, true, true]).1
      ⟨by decide, by decide⟩⟩


/-- Treasure distribution always lets the round continue. -/
lemma distribute_treasure_continues (players : List Player) (card : Card) :
    (distribute_treasure players card).2.2 = true := by
  simp only [distribute_treasure]
  split <;> rfl

/-- C2: processing a hazard card bumps that hazard kind's per-round tally by
one (other kinds untouched) and ends the round exactly when the new tally
reaches 2 or more; a first sighting (tally becoming 1) always continues, and
when the round ends this way, applying the loop's loss step zeroes the round
store of every player still in the temple. -/
theorem hazard_second_sighting_ends_round (g : Game) (card : Card)
    (hc : card.card_type = CardType.hazard) :
    (process_card g card).1.hazard_counts card.hazard_type
        = g.hazard_counts card.hazard_type + 1
    ∧ (∀ k : Option HazardType, k ≠ card.hazard_type →
        (process_card g card).1.hazard_counts k = g.hazard_counts k)
    ∧ ((process_card g card).2 = false ↔ 2 ≤ g.hazard_counts card.hazard_type + 1)
    ∧ (g.hazard_counts card.hazard_type = 0 → (process_card g card).2 = true)
    ∧ ((process_card g card).2 = false →
        ∀ p ∈ (loseRoundForInTemple (process_card g card).1).players,
          p.in_temple = true → p.round_treasures = {}) := by
  refine ⟨?_, ?_, ?_, ?_, ?_⟩
  · simp [process_card, hc, process_hazard]
  · intro k hk
    simp [process_card, hc, process_hazard, hk]
  · simp only [process_card, hc, process_hazard, eq_self_iff_true, if_true,
      decide_eq_false_iff_not]
    omega
  · intro h0
    simp [process_card, hc, process_hazard, h0]
  · intro _ p hp hpt
    simp only [loseRoundForInTemple, List.mem_map] at hp
    rcases hp with ⟨p', _, rfl⟩
    by_cases h : p'.in_temple = true
    · simp [h, Player.lose_round_treasures]
    · rw [if_neg h] at hpt
      exact absurd hpt h

/-- C2 witness: a second snake in `snakeSeenGame` bumps the snake tally to 2
and ends the round. -/
theorem hazard_second_sighting_ends_round_witness :
    snakeCard.card_type = CardType.hazard
    ∧ ((process_card snakeSeenGame snakeCard).1.hazard_counts snakeCard.hazard_type
          = snakeSeenGame.hazard_counts snakeCard.hazard_type + 1
      ∧ (∀ k : Option HazardType, k ≠ snakeCard.hazard_type →
          (process_card snakeSeenGame snakeCard).1.hazard_counts k
            = snakeSeenGame.hazard_counts k)
      ∧ ((process_card snakeSeenGame snakeCard).2 = false
          ↔ 2 ≤ snakeSeenGame.hazard_counts snakeCard.hazard_type + 1)
      ∧ (snakeSeenGame.hazard_counts snakeCard.hazard_type = 0 →
          (process_card snakeSeenGame snakeCard).2 = true)
      ∧ ((process_card snakeSeenGame snakeCard).2 = false →
          ∀ p ∈ (loseRoundForInTemple (process_card snakeSeenGame snakeCard).1).players,
            p.in_temple = true → p.round_treasures = {})) :=
  ⟨rfl, hazard_second_sighting_ends_round snakeSeenGame snakeCard rfl⟩

/-- C10: a round never ends on its first card. Immediately after
`setup_round` the hazard tally is identically zero, so whatever the first
card is — treasure, artifact, or a hazard whose tally can only become 1 —
`process_card` returns "continue", making the end-on-first-card branch of
the round loop unreachable. -/
theorem first_card_always_continues (g : Game) (newDeck restDeck : List Card)
    (card : Card) :
    (process_card { setup_round g newDeck with deck := restDeck } card).2 = true := by
  cases hct : card.card_type
  case treasure =>
    simp only [process_card, hct]
    exact distribute_treasure_continues _ _
  case hazard =>
    simp only [process_card, hct, process_hazard, setup_round]
    rfl
  case artifact =>
    simp [process_card, hct]


/-- The main round loop never reaches the empty-deck draw failure: the
deck-emptiness check precedes the draw and departures never touch the deck. -/
lemma round_loop_no_empty_deck (humanO : Nat → Option Bool) (aiO : Nat → Nat → Bool) :
    ∀ (fuel : Nat) (g : Game) (k : Nat),
      (round_loop humanO aiO fuel g k).isEmptyDeckErr = false := by
  intro fuel
  induction fuel with
  | zero => intro g k; rfl
  | succ fuel ih =>
    intro g k
    rw [round_loop]
    by_cases h1 : inTempleCount g.players = 0
    · rw [if_pos h1]; rfl
    · rw [if_neg h1]
      by_cases h2 : g.deck.isEmpty = true
      · rw [if_pos h2]; rfl
      · rw [if_neg h2]
        cases hdec : get_player_decisions g.players (humanO k) (aiO k) with
        | none => rfl
        | some decisions =>
          dsimp only
          split
          · exact ih _ _
          · cases hdeck : (process_departures g decisions).deck with
            | nil =>
              exfalso
              apply h2
              have hgd : g.deck = [] := by
                rw [← process_departures_deck g decisions, hdeck]
              rw [hgd]
              rfl
            | cons card rest =>
              dsimp only
              split
              · exact ih _ _
              · rfl

/-- C7: a card is drawn only when the deck is non-empty — an emptiness check
precedes every `deck.pop(0)` in `play_round`, and nothing between the check
and the draw touches the deck, so the modelled `EmptyDeck` failure is
unreachable for every starting state, shuffled deck, decision oracle and
fuel bound. -/
theorem empty_deck_draw_unreachable (g : Game) (newDeck : List Card)
    (humanO : Nat → Option Bool) (aiO : Nat → Nat → Bool) (fuel : Nat) :
    (play_round g newDeck humanO aiO fuel).isEmptyDeckErr = false := by
  rw [play_round]
  cases hd : (setup_round g newDeck).deck with
  | nil => exact round_loop_no_empty_deck humanO aiO fuel _ 0
  | cons card rest =>
    dsimp only
    split
    · exact round_loop_no_empty_deck humanO aiO fuel _ 0
    · rfl


/-- C8: the quit sentinel ends everything with no scoring and no leaderboard
access. First conjunct: at any reached decision point with players still in
the temple (among them the human) and a non-empty deck, a quit-sentinel
answer makes the round loop return the quit result at once. Second conjunct:
when the round sequence aborts this way, `play_game` returns immediately and
its effect trace is empty — no `calculate_score` call and no leaderboard
read or write ever happens. -/
theorem quit_sentinel_aborts_match (g' : Game) (humanO : Nat → Option Bool)
    (aiO : Nat → Nat → Bool) (fuel k : Nat) (inp : MatchInputs) (g : Game) :
    (¬ inTempleCount g'.players = 0 → g'.deck.isEmpty = false →
      (g'.players.any fun p => p.in_temple && p.is_human) = true →
      humanO k = none →
      round_loop humanO aiO (fuel + 1) g' k = RoundResult.quitGame g')
    ∧ ((play_rounds inp 0 MAX_ROUNDS g).isNone = true →
      play_game inp g = (none, [])) := by
  constructor
  · intro h1 h2 hany hk
    rw [round_loop, if_neg h1, if_neg (by rw [h2]; exact Bool.false_ne_true)]
    rw [hk]
    have hdec : get_player_decisions g'.players none (aiO k) = none := by
      simp [get_player_decisions, hany]
    rw [hdec]
  · intro h
    cases hpr : play_rounds inp 0 MAX_ROUNDS g with
    | none => simp [play_game, hpr]
    | some g2 => rw [hpr] at h; exact absurd h (by simp)

/-- C8 witness: with the always-quit human oracle, the round loop quits at
the first decision point of `quitRoundGame`, and the whole match from
`quitStartGame` ends with an empty effect trace. -/
theorem quit_sentinel_aborts_match_witness :
    (¬ inTempleCount quitRoundGame.players = 0)
    ∧ quitRoundGame.deck.isEmpty = false
    ∧ (quitRoundGame.players.any fun p => p.in_temple && p.is_human) = true
    ∧ round_loop (fun _ => none) (fun _ _ => true) 1 quitRoundGame 0
        = RoundResult.quitGame quitRoundGame
    ∧ (play_rounds quitInputs 0 MAX_ROUNDS quitStartGame).isNone = true
    ∧ play_game quitInputs quitStartGame = (none, []) :=
  ⟨by decide, rfl, by decide,
   (quit_sentinel_aborts_match quitRoundGame (fun _ => none) (fun _ _ => true) 0 0
      quitInputs quitStartGame).1 (by decide) rfl (by decide) rfl,
   rfl,
   (quit_sentinel_aborts_match quitRoundGame (fun _ => none) (fun _ _ => true) 0 0
      quitInputs quitStartGame).2 rfl⟩

end IncanGold
